import Mathlib

/-!
Shallow embedding of the grade-report aggregation engine of this repository.

The embedded code is the statistics core of `src/src/App.js` (the main
variant: `parseNumber`, `coerceThresholds`, `generateReport`) and of
`src/unnamed/part_000` (an earlier variant of the same app, whose
`generateReport` lacks the fixed-band metrics, does not normalize the
thresholds and does not sort the group keys).

JavaScript numbers are modelled by `JSNum` (a finite rational, `NaN`, or a
signed infinity); cell values by `Cell` (number, string, or null/undefined).
`parseFloat` is modelled by `parseFloatCore` over the character list
(longest valid numeric prefix: optional sign, an `Infinity` literal, or
digits with an optional decimal part and an optional exponent).
`toFixed(f)` on a rational is modelled by `toFixedScaled f`, returning the
formatted value scaled by `10^f` as an integer; JavaScript `toFixed` picks,
among the two nearest candidates, the larger one, which is `⌊x·10^f + 1/2⌋`.
Since `Math.sqrt` leaves the rationals, a summary stores the exact variance
and the predicate `sdRoundsTo v k` expresses that `Math.sqrt(v).toFixed(2)`
is the integer `k` scaled by 100 (for `k ≥ 1`).
-/

namespace GradeApp

/-- A JavaScript number: a finite rational, NaN, or a signed infinity
(`inf true` is `+∞`, `inf false` is `-∞`). -/
inductive JSNum where
  | fin (q : ℚ)
  | nan
  | inf (pos : Bool)
deriving DecidableEq, Repr

/-- JavaScript `Number.isNaN`. -/
def JSNum.isNaN : JSNum → Bool
  | .nan => true
  | _ => false

/-- JavaScript `Number.isFinite`. -/
def JSNum.isFinite : JSNum → Bool
  | .fin _ => true
  | _ => false

/-- The rational value of a finite `JSNum` (0 on the non-finite
constructors, which the embedded code only reaches through the
`Number.isFinite` guards discussed at the claims). -/
def JSNum.toQ : JSNum → ℚ
  | .fin q => q
  | _ => 0

/-- A raw spreadsheet cell value: a number, a string, or null/undefined. -/
inductive Cell where
  | num (v : JSNum)
  | str (s : String)
  | null
deriving DecidableEq, Repr

/-- Numeric value of a digit character. -/
def digitVal (c : Char) : ℕ := c.toNat - 48

/-- Value of a digit string read in base 10. -/
def digitsVal (ds : List Char) : ℕ := ds.foldl (fun a c => 10 * a + digitVal c) 0

/-- Splits off the leading run of decimal digits. -/
def takeDigits (cs : List Char) : List Char × List Char :=
  (cs.takeWhile Char.isDigit, cs.dropWhile Char.isDigit)

/-- Consumes an optional sign; returns true when the sign is `-`. -/
def parseSign : List Char → Bool × List Char
  | '-' :: rest => (true, rest)
  | '+' :: rest => (false, rest)
  | cs => (false, cs)

/-- Parses the exponent part (after the mantissa): an `e`/`E` followed by an
optional sign and at least one digit; anything else contributes exponent 0,
matching `parseFloat`'s longest-valid-prefix rule. -/
def parseExponent : List Char → ℤ
  | c :: rest =>
      if c = 'e' ∨ c = 'E' then
        let (eneg, rest2) := parseSign rest
        let (eds, _) := takeDigits rest2
        if eds = [] then 0
        else if eneg then -(digitsVal eds : ℤ) else (digitsVal eds : ℤ)
      else 0
  | [] => 0

/-- JavaScript `parseFloat` on a character list: skip leading whitespace,
optional sign, the `Infinity` literal or a decimal mantissa with optional
exponent; `NaN` when no digit is found. -/
def parseFloatCore (cs0 : List Char) : JSNum :=
  let cs := cs0.dropWhile Char.isWhitespace
  let (neg, cs) := parseSign cs
  if cs.take 8 = "Infinity".data then JSNum.inf (!neg)
  else
    let (ip, cs1) := takeDigits cs
    let (fp, cs2) :=
      match cs1 with
      | '.' :: rest => takeDigits rest
      | _ => ([], cs1)
    if ip = [] ∧ fp = [] then JSNum.nan
    else
      let mant : ℚ := (digitsVal ip : ℚ) + (digitsVal fp : ℚ) / 10 ^ fp.length
      let e : ℤ := parseExponent cs2
      JSNum.fin ((if neg then -1 else 1) * mant * 10 ^ e)

/-- JavaScript `String.prototype.trim` at the character level: drop leading
and trailing whitespace. -/
def trimChars (cs : List Char) : List Char :=
  ((cs.dropWhile Char.isWhitespace).reverse.dropWhile Char.isWhitespace).reverse

/-- Embeds `parseNumber` (`src/src/App.js` lines 7-13, identical in
`src/unnamed/part_000`): null/undefined give NaN, a literal number is
returned as-is, a string is trimmed, stripped of `,` and `%`, parsed with
`parseFloat`, and any non-finite parse gives NaN. -/
def parseNumber : Cell → JSNum
  | .null => JSNum.nan
  | .num v => v
  | .str s =>
      let cs := (trimChars s.data).filter (fun c => decide (c ≠ ',' ∧ c ≠ '%'))
      let v := parseFloatCore cs
      if v.isFinite then v else JSNum.nan

/-- A raw data row restricted to the two selected columns: the grade cell,
and the group cell already stringified (`none` models a null/undefined
group value). -/
structure RawRow where
  gradeCell : Cell
  groupVal : Option String
deriving DecidableEq, Repr

/-- A coerced row as built inside `generateReport` (lines 87-92): the
parsed grade (still a JavaScript number) and the group label, with
`"(missing)"` substituted for a null/undefined group value. -/
structure JSRow where
  grade : JSNum
  group : String
deriving DecidableEq, Repr

/-- Embeds the row preparation of `generateReport` (`src/src/App.js`
lines 87-92, identical in `src/unnamed/part_000` lines 70-78): map every
raw row through coercion, then keep the rows whose grade is not NaN. -/
def prepareRows (data : List RawRow) : List JSRow :=
  (data.map fun r =>
      { grade := parseNumber r.gradeCell,
        group := r.groupVal.getD "(missing)" : JSRow }).filter
    (fun r => !r.grade.isNaN)

/-- A coerced row in the finite regime, with the grade as a rational. -/
structure Row where
  grade : ℚ
  group : String
deriving DecidableEq, Repr

/-- JavaScript `toFixed f` on a rational, returning the result scaled by
`10^f`: among the two nearest decimal candidates the larger is chosen. -/
def toFixedScaled (f : ℕ) (x : ℚ) : ℤ := ⌊x * 10 ^ f + 1 / 2⌋

/-- Expresses that `Math.sqrt(v).toFixed(2)` is the integer `k` scaled by
100, for `k ≥ 1`: the square root lies in the half-open rounding interval
`[(2k-1)/200, (2k+1)/200)`, stated on the squares so everything stays
rational and decidable. -/
def sdRoundsTo (v : ℚ) (k : ℤ) : Prop :=
  ((2 * k - 1 : ℚ) / 200) ^ 2 ≤ v ∧ v < ((2 * k + 1 : ℚ) / 200) ^ 2

instance (v : ℚ) (k : ℤ) : Decidable (sdRoundsTo v k) := by
  unfold sdRoundsTo; infer_instance

/-- Round half away from zero to one decimal place, scaled by 10. This is
the spec's stated rounding mode, to be compared with the code's
`toFixed(1)` (`toFixedScaled 1`). -/
def roundHalfAwayScaled1 (x : ℚ) : ℤ :=
  if 0 ≤ x then ⌊x * 10 + 1 / 2⌋ else -⌊-x * 10 + 1 / 2⌋

/-- Embeds `r.grade >= p` counting (lines 98 and 146). -/
def passCountOf (p : ℚ) (arr : List ℚ) : ℕ :=
  (arr.filter fun x => decide (p ≤ x)).length

/-- Embeds `r.grade >= m && r.grade < d` counting (lines 99 and 147). -/
def meritCountOf (m d : ℚ) (arr : List ℚ) : ℕ :=
  (arr.filter fun x => decide (m ≤ x ∧ x < d)).length

/-- Embeds `r.grade >= d` counting (lines 100 and 148). -/
def distCountOf (d : ℚ) (arr : List ℚ) : ℕ :=
  (arr.filter fun x => decide (d ≤ x)).length

/-- Embeds `grades.reduce((a, b) => a + b, 0) / grades.length`
(lines 110 and 157). -/
def meanOf (arr : List ℚ) : ℚ := arr.sum / arr.length

/-- Embeds `grades.reduce((a, b) => a + Math.pow(b - mean, 2), 0) /
grades.length` (lines 111 and 158); the stored SD is the square root of
this value. -/
def varianceOf (arr : List ℚ) : ℚ :=
  (arr.map fun b => (b - meanOf arr) ^ 2).sum / arr.length

/-- Embeds `Math.max(...grades)` on a non-empty list (lines 127 and 174). -/
def maxOf : List ℚ → ℚ
  | [] => 0
  | x :: xs => xs.foldl max x

/-- Embeds `Math.min(...grades)` on a non-empty list (lines 128 and 175). -/
def minOf : List ℚ → ℚ
  | [] => 0
  | x :: xs => xs.foldl min x

/-- The summary record of the main variant (`src/src/App.js`): the counts
are raw naturals, the rate fields carry the `toFixed(1)` string scaled by
10, `mean2` carries `mean.toFixed(2)` scaled by 100, and `variance` is the
exact value whose square root is formatted into the SD field. -/
structure Summary where
  n : ℕ
  passCount : ℕ
  failCount : ℕ
  passRate10 : ℤ
  meritRate10 : ℤ
  distRate10 : ℤ
  overallPassFixed10 : ℤ
  passBand : ℕ
  meritBand : ℕ
  distBand : ℕ
  meritCount : ℕ
  distCount : ℕ
  mean : ℚ
  variance : ℚ
  mean2 : ℤ
  max : ℚ
  min : ℚ
deriving DecidableEq, Repr

/-- Embeds the per-set statistics of `src/src/App.js`: the overall block
(lines 94-130) and the per-group block (lines 141-177) apply the same
formulas to a grade list `arr`, given normalized thresholds `p ≤ m ≤ d`. -/
def summarize (p m d : ℚ) (arr : List ℚ) : Summary where
  n := arr.length
  passCount := passCountOf p arr
  failCount := arr.length - passCountOf p arr
  passRate10 := toFixedScaled 1 ((passCountOf p arr : ℚ) / arr.length * 100)
  meritRate10 := toFixedScaled 1 ((meritCountOf m d arr : ℚ) / arr.length * 100)
  distRate10 := toFixedScaled 1 ((distCountOf d arr : ℚ) / arr.length * 100)
  overallPassFixed10 :=
    toFixedScaled 1 ((passCountOf 40 arr : ℚ) / arr.length * 100)
  passBand := (arr.filter fun x => decide ((40 : ℚ) ≤ x ∧ x < 60)).length
  meritBand := (arr.filter fun x => decide ((60 : ℚ) ≤ x ∧ x < 70)).length
  distBand := (arr.filter fun x => decide ((70 : ℚ) ≤ x)).length
  meritCount := meritCountOf m d arr
  distCount := distCountOf d arr
  mean := meanOf arr
  variance := varianceOf arr
  mean2 := toFixedScaled 2 (meanOf arr)
  max := maxOf arr
  min := minOf arr

/-- The summary record of the earlier variant (`src/unnamed/part_000`),
which has no fixed-band fields. -/
structure Summary2 where
  n : ℕ
  passCount : ℕ
  failCount : ℕ
  passRate10 : ℤ
  meritRate10 : ℤ
  distRate10 : ℤ
  meritCount : ℕ
  distCount : ℕ
  mean : ℚ
  variance : ℚ
  mean2 : ℤ
  max : ℚ
  min : ℚ
deriving DecidableEq, Repr

/-- Embeds the per-set statistics of `src/unnamed/part_000` (overall block
lines 80-108, per-group block lines 117-141), applied directly to the raw
threshold values. -/
def summarize2 (passing merit distinction : ℚ) (arr : List ℚ) : Summary2 where
  n := arr.length
  passCount := passCountOf passing arr
  failCount := arr.length - passCountOf passing arr
  passRate10 := toFixedScaled 1 ((passCountOf passing arr : ℚ) / arr.length * 100)
  meritRate10 :=
    toFixedScaled 1 ((meritCountOf merit distinction arr : ℚ) / arr.length * 100)
  distRate10 :=
    toFixedScaled 1 ((distCountOf distinction arr : ℚ) / arr.length * 100)
  meritCount := meritCountOf merit distinction arr
  distCount := distCountOf distinction arr
  mean := meanOf arr
  variance := varianceOf arr
  mean2 := toFixedScaled 2 (meanOf arr)
  max := maxOf arr
  min := minOf arr

/-- Embeds `coerceThresholds` (`src/src/App.js` lines 64-72): replace a
non-finite input by its default (40/60/70), clamp `p` to `[0,100]`, `m` to
`[p,100]`, `d` to `[m,100]`. -/
def coerceThresholds (passing merit distinction : JSNum) : ℚ × ℚ × ℚ :=
  let p := if passing.isFinite then passing.toQ else 40
  let m := if merit.isFinite then merit.toQ else 60
  let d := if distinction.isFinite then distinction.toQ else 70
  let p := max 0 (min 100 p)
  let m := max p (min 100 m)
  let d := max m (min 100 d)
  (p, m, d)

/-- The sorted distinct group labels of a coerced row list: the object
`groups` is keyed by the distinct labels, and `Object.keys(groups).sort()`
sorts them lexicographically (lines 133-140). -/
def groupLabels (rows : List Row) : List String :=
  List.insertionSort (fun a b => a ≤ b) (rows.map Row.group).dedup

/-- Embeds the group-summary construction of `src/src/App.js`
(lines 133-177): one summary per distinct group label, in sorted label
order, over the grades of that group's rows in input order. -/
def groupArr (p m d : ℚ) (rows : List Row) : List (String × Summary) :=
  (groupLabels rows).map fun g =>
    (g, summarize p m d ((rows.filter fun r => decide (r.group = g)).map Row.grade))

/-- The error conditions of `generateReport`: the three alert guards, the
declined default-title confirm, and the empty-result alert. -/
inductive GenError where
  | missingInput
  | missingGradeCol
  | missingGroupCol
  | titleDeclined
  | emptyResult
deriving DecidableEq, Repr

/-- The piece of component state `generateReport` reads and writes:
the loaded rows restricted to the selected columns, whether the two columns
are selected, the title, the three threshold inputs, and the two computed
summary tables. -/
structure AppState where
  data : List RawRow
  gradeColSelected : Bool
  groupColSelected : Bool
  title : String
  passing : JSNum
  merit : JSNum
  distinction : JSNum
  overallSummary : List Summary
  groupSummary : List (String × Summary)
deriving DecidableEq, Repr

/-- Embeds `generateReport` (`src/src/App.js` lines 74-186) as a state
transformer returning the error raised, if any, next to the new state.
`confirm` is the user's answer to the empty-title confirm dialog. The
success branch reads the coerced grades through `JSNum.toQ`; every grade
reaching it is non-NaN by the filter, and the finiteness question for
numeric-literal cells is settled at the coercion claims. -/
def generateReport (confirm : Bool) (st : AppState) :
    Option GenError × AppState :=
  if st.data = [] then (some .missingInput, st)
  else if st.gradeColSelected = false then (some .missingGradeCol, st)
  else if st.groupColSelected = false then (some .missingGroupCol, st)
  else if trimChars st.title.data = [] ∧ confirm = false then
    (some .titleDeclined, st)
  else
    let st1 :=
      if trimChars st.title.data = [] then
        { st with title := "Mid-Term Politics Grades Report" }
      else st
    let pmd := coerceThresholds st.passing st.merit st.distinction
    let rows := prepareRows st.data
    if rows = [] then (some .emptyResult, st1)
    else
      let rowsQ : List Row := rows.map fun r => { grade := r.grade.toQ, group := r.group }
      (none,
        { st1 with
          overallSummary := [summarize pmd.1 pmd.2.1 pmd.2.2 (rowsQ.map Row.grade)],
          groupSummary := groupArr pmd.1 pmd.2.1 pmd.2.2 rowsQ })

end GradeApp

namespace GradeApp

/-! Helper lemmas shared by several claims. -/

/-- Unfolds `coerceThresholds` into its clamp chain. -/
theorem coerceThresholds_eq (P M D : JSNum) :
    coerceThresholds P M D =
      (max 0 (min 100 (if P.isFinite then P.toQ else 40)),
        max (max 0 (min 100 (if P.isFinite then P.toQ else 40)))
          (min 100 (if M.isFinite then M.toQ else 60)),
        max
          (max (max 0 (min 100 (if P.isFinite then P.toQ else 40)))
            (min 100 (if M.isFinite then M.toQ else 60)))
          (min 100 (if D.isFinite then D.toQ else 70))) := rfl

/-- The clamp chain of the normalizer yields an ordered triple in `[0, 100]`,
whatever the defaulted inputs are. -/
theorem clamp_chain_bounds (p0 m0 d0 : ℚ) :
    0 ≤ max 0 (min 100 p0) ∧
      max 0 (min 100 p0) ≤ max (max 0 (min 100 p0)) (min 100 m0) ∧
      max (max 0 (min 100 p0)) (min 100 m0) ≤
        max (max (max 0 (min 100 p0)) (min 100 m0)) (min 100 d0) ∧
      max (max (max 0 (min 100 p0)) (min 100 m0)) (min 100 d0) ≤ 100 := by
  refine ⟨le_max_left _ _, le_max_left _ _, le_max_left _ _, ?_⟩
  have h1 : max 0 (min 100 p0) ≤ (100 : ℚ) :=
    max_le (by norm_num) (min_le_left _ _)
  have h2 : max (max 0 (min 100 p0)) (min 100 m0) ≤ (100 : ℚ) :=
    max_le h1 (min_le_left _ _)
  exact max_le h2 (min_le_left _ _)

/-- On an already-normalized finite triple the normalizer is the identity. -/
theorem coerceThresholds_fixed (p m d : ℚ) (h0 : 0 ≤ p) (hpm : p ≤ m)
    (hmd : m ≤ d) (h100 : d ≤ 100) :
    coerceThresholds (JSNum.fin p) (JSNum.fin m) (JSNum.fin d) = (p, m, d) := by
  have hm100 : m ≤ 100 := le_trans hmd h100
  have hp100 : p ≤ 100 := le_trans hpm hm100
  rw [coerceThresholds_eq]
  simp only [JSNum.isFinite, JSNum.toQ, if_true]
  rw [min_eq_right hp100, max_eq_right h0, min_eq_right hm100,
    max_eq_right hpm, min_eq_right h100, max_eq_right hmd]

/-- The `n` field of a summary is the grade-list length. -/
theorem summarize_n (p m d : ℚ) (arr : List ℚ) :
    (summarize p m d arr).n = arr.length := rfl

/-- The group labels of the group-summary table. -/
theorem groupArr_map_fst (p m d : ℚ) (rows : List Row) :
    (groupArr p m d rows).map Prod.fst = groupLabels rows := by
  rw [groupArr, List.map_map]
  exact (List.map_congr_left fun g _ => rfl).trans (List.map_id _)

/-- The `variance` field of a summary is `varianceOf` of the grade list. -/
theorem summarize_variance (p m d : ℚ) (arr : List ℚ) :
    (summarize p m d arr).variance = varianceOf arr := rfl

/-- The `mean2` field of a summary is the formatted mean. -/
theorem summarize_mean2 (p m d : ℚ) (arr : List ℚ) :
    (summarize p m d arr).mean2 = toFixedScaled 2 (meanOf arr) := rfl

/-- The fixed overall passing rate field of a summary. -/
theorem summarize_overallPassFixed10 (p m d : ℚ) (arr : List ℚ) :
    (summarize p m d arr).overallPassFixed10 =
      toFixedScaled 1 ((passCountOf 40 arr : ℚ) / arr.length * 100) := rfl

/-! Claim C3. -/

/-- C3: the threshold normalizer replaces non-finite inputs by 40/60/70,
clamps passing to `[0,100]`, merit to `[passing,100]` and distinction to
`[merit,100]`, always yields `0 ≤ p ≤ m ≤ d ≤ 100`, and is idempotent on an
already-normalized triple. -/
theorem c3_threshold_normalizer (P M D : JSNum) :
    (0 ≤ (coerceThresholds P M D).1 ∧
      (coerceThresholds P M D).1 ≤ (coerceThresholds P M D).2.1 ∧
      (coerceThresholds P M D).2.1 ≤ (coerceThresholds P M D).2.2 ∧
      (coerceThresholds P M D).2.2 ≤ 100) ∧
    coerceThresholds P M D =
      coerceThresholds (if P.isFinite then P else JSNum.fin 40)
        (if M.isFinite then M else JSNum.fin 60)
        (if D.isFinite then D else JSNum.fin 70) ∧
    ((coerceThresholds P M D).1 =
        max 0 (min 100 (if P.isFinite then P.toQ else 40)) ∧
      (coerceThresholds P M D).2.1 =
        max (coerceThresholds P M D).1
          (min 100 (if M.isFinite then M.toQ else 60)) ∧
      (coerceThresholds P M D).2.2 =
        max (coerceThresholds P M D).2.1
          (min 100 (if D.isFinite then D.toQ else 70))) ∧
    coerceThresholds (JSNum.fin (coerceThresholds P M D).1)
        (JSNum.fin (coerceThresholds P M D).2.1)
        (JSNum.fin (coerceThresholds P M D).2.2) =
      coerceThresholds P M D := by
  obtain ⟨h0, hpm, hmd, h100⟩ :=
    clamp_chain_bounds (if P.isFinite then P.toQ else 40)
      (if M.isFinite then M.toQ else 60) (if D.isFinite then D.toQ else 70)
  rw [coerceThresholds_eq P M D]
  refine ⟨⟨h0, hpm, hmd, h100⟩, ?_, ⟨rfl, rfl, rfl⟩, ?_⟩
  · cases P <;> cases M <;> cases D <;> rfl
  · rw [coerceThresholds_fixed _ _ _ h0 hpm hmd h100]

/-! Claim C8. -/

/-- C8: the fixed-band counts, the fixed overall passing rate, and the N,
mean, SD, max and min outputs of the aggregation depend only on the grade
list, never on the user-supplied thresholds. -/
theorem c8_threshold_noninterference (p1 m1 d1 p2 m2 d2 : ℚ) (arr : List ℚ) :
    (summarize p1 m1 d1 arr).n = (summarize p2 m2 d2 arr).n ∧
    (summarize p1 m1 d1 arr).passBand = (summarize p2 m2 d2 arr).passBand ∧
    (summarize p1 m1 d1 arr).meritBand = (summarize p2 m2 d2 arr).meritBand ∧
    (summarize p1 m1 d1 arr).distBand = (summarize p2 m2 d2 arr).distBand ∧
    (summarize p1 m1 d1 arr).overallPassFixed10 =
      (summarize p2 m2 d2 arr).overallPassFixed10 ∧
    (summarize p1 m1 d1 arr).mean = (summarize p2 m2 d2 arr).mean ∧
    (summarize p1 m1 d1 arr).mean2 = (summarize p2 m2 d2 arr).mean2 ∧
    (summarize p1 m1 d1 arr).variance = (summarize p2 m2 d2 arr).variance ∧
    Real.sqrt (summarize p1 m1 d1 arr).variance =
      Real.sqrt (summarize p2 m2 d2 arr).variance ∧
    (summarize p1 m1 d1 arr).max = (summarize p2 m2 d2 arr).max ∧
    (summarize p1 m1 d1 arr).min = (summarize p2 m2 d2 arr).min :=
  ⟨rfl, rfl, rfl, rfl, rfl, rfl, rfl, rfl, rfl, rfl, rfl⟩

/-! Claim C1. -/

/-- C1, counterexample: on the spec example the population variance is 250,
whose square root does not format as 16.20 under `toFixed(2)`. -/
theorem c1_example_counterexample :
    (summarize 40 60 70 [35, 45, 65, 75]).variance = 250 ∧
    ¬ sdRoundsTo (summarize 40 60 70 [35, 45, 65, 75]).variance 1620 := by
  have hmean : meanOf [35, 45, 65, 75] = 55 := by norm_num [meanOf]
  have hvar : varianceOf [35, 45, 65, 75] = 250 := by
    simp only [varianceOf, hmean]
    norm_num
  refine ⟨?_, ?_⟩
  · rw [summarize_variance, hvar]
  · rw [summarize_variance, hvar]
    intro h
    rw [sdRoundsTo] at h
    exact absurd h.1 (by norm_num)

/-- C1, amended: for grades `[35, 45, 65, 75]` and thresholds `(40,60,70)`
the aggregation yields N=4, passCount=3, failCount=1, meritCount=1,
distCount=1, passBand=1, meritBand=1, distBand=1, fixed overall passing
rate 75.0, mean formatted 55.00, population sd formatted 15.81, max=75 and
min=35. -/
theorem c1_example_amended :
    coerceThresholds (JSNum.fin 40) (JSNum.fin 60) (JSNum.fin 70) =
      (40, 60, 70) ∧
    (summarize 40 60 70 [35, 45, 65, 75]).n = 4 ∧
    (summarize 40 60 70 [35, 45, 65, 75]).passCount = 3 ∧
    (summarize 40 60 70 [35, 45, 65, 75]).failCount = 1 ∧
    (summarize 40 60 70 [35, 45, 65, 75]).meritCount = 1 ∧
    (summarize 40 60 70 [35, 45, 65, 75]).distCount = 1 ∧
    (summarize 40 60 70 [35, 45, 65, 75]).passBand = 1 ∧
    (summarize 40 60 70 [35, 45, 65, 75]).meritBand = 1 ∧
    (summarize 40 60 70 [35, 45, 65, 75]).distBand = 1 ∧
    (summarize 40 60 70 [35, 45, 65, 75]).overallPassFixed10 = 750 ∧
    (summarize 40 60 70 [35, 45, 65, 75]).mean2 = 5500 ∧
    sdRoundsTo (summarize 40 60 70 [35, 45, 65, 75]).variance 1581 ∧
    (summarize 40 60 70 [35, 45, 65, 75]).max = 75 ∧
    (summarize 40 60 70 [35, 45, 65, 75]).min = 35 := by
  have hmean : meanOf [35, 45, 65, 75] = 55 := by norm_num [meanOf]
  have hvar : varianceOf [35, 45, 65, 75] = 250 := by
    simp only [varianceOf, hmean]
    norm_num
  have hpc : passCountOf 40 [35, 45, 65, 75] = 3 := by decide
  refine ⟨?_, rfl, by decide, by decide, by decide, by decide, by decide,
    by decide, by decide, ?_, ?_, ?_, by decide, by decide⟩
  · exact coerceThresholds_fixed 40 60 70 (by norm_num) (by norm_num)
      (by norm_num) (by norm_num)
  · rw [summarize_overallPassFixed10, hpc]
    rw [toFixedScaled, Int.floor_eq_iff]
    norm_num
  · rw [summarize_mean2, hmean]
    rw [toFixedScaled, Int.floor_eq_iff]
    norm_num
  · rw [summarize_variance, hvar, sdRoundsTo]
    norm_num

/-! Claim C5. -/

/-- C5: the group-summary table has exactly one record per distinct coerced
group value, and its records are in ascending lexicographic order of the
group label. -/
theorem c5_group_summary_order (p m d : ℚ) (rows : List Row) :
    List.Sorted (fun a b : String => a ≤ b)
        ((groupArr p m d rows).map Prod.fst) ∧
    ((groupArr p m d rows).map Prod.fst).Nodup ∧
    ∀ g : String,
      g ∈ (groupArr p m d rows).map Prod.fst ↔ g ∈ rows.map Row.group := by
  rw [groupArr_map_fst]
  refine ⟨List.sorted_insertionSort _ _, ?_, ?_⟩
  · exact ((List.perm_insertionSort _ _).nodup_iff).2 (List.nodup_dedup _)
  · intro g
    rw [groupLabels, List.mem_insertionSort]
    exact List.mem_dedup

/-! Claim C9. -/

/-- The filtered length for one group label is the label count in the
projected group list. -/
theorem filter_group_length_eq_count (rows : List Row) (g : String) :
    (rows.filter fun r => decide (r.group = g)).length =
      (rows.map Row.group).count g := by
  rw [List.count, List.countP_map, List.countP_eq_length_filter]
  congr 1

/-- C9: the group `N` values sum to the overall `N` — the group partition
is exhaustive and disjoint over the coerced rows. -/
theorem c9_group_partition (p m d : ℚ) (rows : List Row) (h : rows ≠ []) :
    ((groupArr p m d rows).map fun gs => gs.2.n).sum =
      (summarize p m d (rows.map Row.grade)).n := by
  rw [summarize_n, List.length_map, groupArr, List.map_map]
  have h1 : ((groupLabels rows).map
      ((fun gs : String × Summary => gs.2.n) ∘ fun g =>
        (g, summarize p m d
          ((rows.filter fun r => decide (r.group = g)).map Row.grade)))) =
      (groupLabels rows).map fun g => (rows.map Row.group).count g := by
    refine List.map_congr_left fun g _ => ?_
    show (summarize p m d
      ((rows.filter fun r => decide (r.group = g)).map Row.grade)).n = _
    rw [summarize_n, List.length_map, filter_group_length_eq_count]
  rw [h1]
  have h2 : (groupLabels rows).Perm (rows.map Row.group).dedup :=
    List.perm_insertionSort _ _
  have h3 := (h2.map fun g => (rows.map Row.group).count g).sum_eq
  rw [h3]
  exact (List.sum_map_count_dedup_eq_length _).trans (List.length_map _ _)

/-- C9 witness at a concrete input. -/
theorem c9_group_partition_witness :
    ((groupArr 40 60 70 [⟨50, "A"⟩]).map fun gs => gs.2.n).sum =
      (summarize 40 60 70 (([⟨50, "A"⟩] : List Row).map Row.grade)).n :=
  c9_group_partition 40 60 70 [⟨50, "A"⟩] (by decide)

end GradeApp

namespace GradeApp

/-! Claim C6 and its variance lemmas. -/

/-- The population variance is a mean of squares, hence non-negative. -/
theorem varianceOf_nonneg (arr : List ℚ) : 0 ≤ varianceOf arr := by
  rw [varianceOf]
  apply div_nonneg
  · apply List.sum_nonneg
    intro x hx
    obtain ⟨b, _, rfl⟩ := List.mem_map.1 hx
    positivity
  · positivity

/-- A sum of non-negative rationals vanishes exactly when every term
vanishes. -/
theorem list_sum_eq_zero_iff_of_nonneg (l : List ℚ) (h : ∀ x ∈ l, 0 ≤ x) :
    l.sum = 0 ↔ ∀ x ∈ l, x = 0 := by
  induction l with
  | nil => simp
  | cons a l ih =>
      have ha : 0 ≤ a := h a (List.mem_cons_self a l)
      have hl : ∀ x ∈ l, 0 ≤ x := fun x hx => h x (List.mem_cons_of_mem _ hx)
      have hs : 0 ≤ l.sum := List.sum_nonneg hl
      simp only [List.sum_cons, List.mem_cons]
      rw [add_eq_zero_iff_of_nonneg ha hs, ih hl]
      constructor
      · rintro ⟨h1, h2⟩ x (rfl | hx)
        · exact h1
        · exact h2 x hx
      · intro hall
        exact ⟨hall a (Or.inl rfl), fun x hx => hall x (Or.inr hx)⟩

/-- The mean of a non-empty constant list is that constant. -/
theorem meanOf_const (arr : List ℚ) (x : ℚ) (h : arr ≠ [])
    (hall : ∀ b ∈ arr, b = x) : meanOf arr = x := by
  have h0 : arr.length ≠ 0 := fun h0 => h (List.length_eq_zero.1 h0)
  have hlen : (arr.length : ℚ) ≠ 0 := by exact_mod_cast h0
  have hsum : arr.sum = (arr.length : ℚ) * x := by
    have hrep : arr = List.replicate arr.length x :=
      List.eq_replicate_iff.2 ⟨rfl, hall⟩
    conv_lhs => rw [hrep]
    rw [List.sum_replicate, nsmul_eq_mul]
  rw [meanOf, hsum, mul_comm, mul_div_assoc, div_self hlen, mul_one]

/-- On a non-empty list the population variance vanishes exactly when every
grade equals the mean. -/
theorem varianceOf_eq_zero_iff (arr : List ℚ) (h : arr ≠ []) :
    varianceOf arr = 0 ↔ ∀ x ∈ arr, x = meanOf arr := by
  have h0 : arr.length ≠ 0 := fun h0 => h (List.length_eq_zero.1 h0)
  have hlen : (arr.length : ℚ) ≠ 0 := by exact_mod_cast h0
  have hnn : ∀ y ∈ arr.map fun b => (b - meanOf arr) ^ 2, 0 ≤ y := by
    intro y hy
    obtain ⟨b, _, rfl⟩ := List.mem_map.1 hy
    positivity
  rw [varianceOf, div_eq_zero_iff]
  constructor
  · rintro (hs | hl)
    · intro x hx
      have hx0 : (x - meanOf arr) ^ 2 = 0 :=
        (list_sum_eq_zero_iff_of_nonneg _ hnn).1 hs _
          (List.mem_map.2 ⟨x, hx, rfl⟩)
      exact sub_eq_zero.1 ((pow_eq_zero_iff (two_ne_zero)).1 hx0)
    · exact absurd hl hlen
  · intro hall
    left
    apply List.sum_eq_zero
    intro y hy
    obtain ⟨b, hb, rfl⟩ := List.mem_map.1 hy
    rw [hall b hb, sub_self]
    norm_num

/-- C6: on a non-empty grade list the population standard deviation is
non-negative, vanishes exactly when all grades are equal, and vanishes in
particular on a singleton group. -/
theorem c6_sd_properties (arr : List ℚ) (h : arr ≠ []) :
    0 ≤ Real.sqrt (varianceOf arr) ∧
    (Real.sqrt (varianceOf arr) = 0 ↔ ∀ x ∈ arr, ∀ y ∈ arr, x = y) ∧
    (arr.length = 1 → Real.sqrt (varianceOf arr) = 0) := by
  have hnn : (0 : ℝ) ≤ (varianceOf arr : ℝ) := by
    exact_mod_cast varianceOf_nonneg arr
  have hiff : Real.sqrt (varianceOf arr) = 0 ↔ ∀ x ∈ arr, ∀ y ∈ arr, x = y := by
    rw [Real.sqrt_eq_zero hnn, Rat.cast_eq_zero, varianceOf_eq_zero_iff arr h]
    constructor
    · intro hmean x hx y hy
      rw [hmean x hx, hmean y hy]
    · intro hpair x hx
      exact (meanOf_const arr x h fun b hb => hpair b hb x hx).symm
  refine ⟨Real.sqrt_nonneg _, hiff, fun h1 => ?_⟩
  obtain ⟨a, rfl⟩ := List.length_eq_one.1 h1
  refine hiff.2 fun x hx y hy => ?_
  rw [List.mem_singleton.1 hx, List.mem_singleton.1 hy]

/-- C6 witness at a concrete input. -/
theorem c6_sd_properties_witness :
    0 ≤ Real.sqrt (varianceOf [3, 3]) ∧
    (Real.sqrt (varianceOf [3, 3]) = 0 ↔
      ∀ x ∈ ([3, 3] : List ℚ), ∀ y ∈ ([3, 3] : List ℚ), x = y) ∧
    (([3, 3] : List ℚ).length = 1 → Real.sqrt (varianceOf [3, 3]) = 0) :=
  c6_sd_properties [3, 3] (by decide)

end GradeApp

namespace GradeApp

/-! Claim C7. -/

/-- On non-negative inputs the code's `toFixed(1)` rounding agrees with
round-half-away-from-zero. -/
theorem toFixed1_eq_halfAway (x : ℚ) (hx : 0 ≤ x) :
    toFixedScaled 1 x = roundHalfAwayScaled1 x := by
  rw [roundHalfAwayScaled1, if_pos hx, toFixedScaled, pow_one]

/-- C7: every rate field is the corresponding count as a percentage of N
rounded to one decimal place with round-half-away-from-zero, and every
count field is the raw unrounded integer. -/
theorem c7_rate_rounding (p m d : ℚ) (arr : List ℚ) (h : arr ≠ []) :
    (summarize p m d arr).passRate10 =
        roundHalfAwayScaled1 ((passCountOf p arr : ℚ) / arr.length * 100) ∧
    (summarize p m d arr).meritRate10 =
        roundHalfAwayScaled1 ((meritCountOf m d arr : ℚ) / arr.length * 100) ∧
    (summarize p m d arr).distRate10 =
        roundHalfAwayScaled1 ((distCountOf d arr : ℚ) / arr.length * 100) ∧
    (summarize p m d arr).overallPassFixed10 =
        roundHalfAwayScaled1 ((passCountOf 40 arr : ℚ) / arr.length * 100) ∧
    (summarize p m d arr).n = arr.length ∧
    (summarize p m d arr).passCount = passCountOf p arr ∧
    (summarize p m d arr).failCount = arr.length - passCountOf p arr ∧
    (summarize p m d arr).meritCount = meritCountOf m d arr ∧
    (summarize p m d arr).distCount = distCountOf d arr ∧
    (summarize p m d arr).passBand =
      (arr.filter fun x => decide ((40 : ℚ) ≤ x ∧ x < 60)).length ∧
    (summarize p m d arr).meritBand =
      (arr.filter fun x => decide ((60 : ℚ) ≤ x ∧ x < 70)).length ∧
    (summarize p m d arr).distBand =
      (arr.filter fun x => decide ((70 : ℚ) ≤ x)).length := by
  have hx : ∀ c : ℕ, 0 ≤ (c : ℚ) / arr.length * 100 := fun c => by positivity
  exact ⟨toFixed1_eq_halfAway _ (hx _), toFixed1_eq_halfAway _ (hx _),
    toFixed1_eq_halfAway _ (hx _), toFixed1_eq_halfAway _ (hx _),
    rfl, rfl, rfl, rfl, rfl, rfl, rfl, rfl⟩

/-- C7 witness at a concrete input. -/
theorem c7_rate_rounding_witness :
    (summarize 40 60 70 [50]).passRate10 =
        roundHalfAwayScaled1
          ((passCountOf 40 [50] : ℚ) / ([50] : List ℚ).length * 100) ∧
    (summarize 40 60 70 [50]).meritRate10 =
        roundHalfAwayScaled1
          ((meritCountOf 60 70 [50] : ℚ) / ([50] : List ℚ).length * 100) ∧
    (summarize 40 60 70 [50]).distRate10 =
        roundHalfAwayScaled1
          ((distCountOf 70 [50] : ℚ) / ([50] : List ℚ).length * 100) ∧
    (summarize 40 60 70 [50]).overallPassFixed10 =
        roundHalfAwayScaled1
          ((passCountOf 40 [50] : ℚ) / ([50] : List ℚ).length * 100) ∧
    (summarize 40 60 70 [50]).n = ([50] : List ℚ).length ∧
    (summarize 40 60 70 [50]).passCount = passCountOf 40 [50] ∧
    (summarize 40 60 70 [50]).failCount =
      ([50] : List ℚ).length - passCountOf 40 [50] ∧
    (summarize 40 60 70 [50]).meritCount = meritCountOf 60 70 [50] ∧
    (summarize 40 60 70 [50]).distCount = distCountOf 70 [50] ∧
    (summarize 40 60 70 [50]).passBand =
      (([50] : List ℚ).filter fun x => decide ((40 : ℚ) ≤ x ∧ x < 60)).length ∧
    (summarize 40 60 70 [50]).meritBand =
      (([50] : List ℚ).filter fun x => decide ((60 : ℚ) ≤ x ∧ x < 70)).length ∧
    (summarize 40 60 70 [50]).distBand =
      (([50] : List ℚ).filter fun x => decide ((70 : ℚ) ≤ x)).length :=
  c7_rate_rounding 40 60 70 [50] (by decide)

/-! Claim C10. -/

/-- C10: on any already-normalized finite threshold triple the two source
variants compute the same overall N, pass, fail, merit and distinction
counts, the same mean (exact and formatted), the same variance hence the
same standard deviation, and the same max and min. -/
theorem c10_variant_agreement (p m d : ℚ) (rows : List Row) (h0 : 0 ≤ p)
    (hpm : p ≤ m) (hmd : m ≤ d) (h100 : d ≤ 100) :
    (summarize (coerceThresholds (JSNum.fin p) (JSNum.fin m) (JSNum.fin d)).1
          (coerceThresholds (JSNum.fin p) (JSNum.fin m) (JSNum.fin d)).2.1
          (coerceThresholds (JSNum.fin p) (JSNum.fin m) (JSNum.fin d)).2.2
          (rows.map Row.grade)).n =
        (summarize2 p m d (rows.map Row.grade)).n ∧
    (summarize (coerceThresholds (JSNum.fin p) (JSNum.fin m) (JSNum.fin d)).1
          (coerceThresholds (JSNum.fin p) (JSNum.fin m) (JSNum.fin d)).2.1
          (coerceThresholds (JSNum.fin p) (JSNum.fin m) (JSNum.fin d)).2.2
          (rows.map Row.grade)).passCount =
        (summarize2 p m d (rows.map Row.grade)).passCount ∧
    (summarize (coerceThresholds (JSNum.fin p) (JSNum.fin m) (JSNum.fin d)).1
          (coerceThresholds (JSNum.fin p) (JSNum.fin m) (JSNum.fin d)).2.1
          (coerceThresholds (JSNum.fin p) (JSNum.fin m) (JSNum.fin d)).2.2
          (rows.map Row.grade)).failCount =
        (summarize2 p m d (rows.map Row.grade)).failCount ∧
    (summarize (coerceThresholds (JSNum.fin p) (JSNum.fin m) (JSNum.fin d)).1
          (coerceThresholds (JSNum.fin p) (JSNum.fin m) (JSNum.fin d)).2.1
          (coerceThresholds (JSNum.fin p) (JSNum.fin m) (JSNum.fin d)).2.2
          (rows.map Row.grade)).meritCount =
        (summarize2 p m d (rows.map Row.grade)).meritCount ∧
    (summarize (coerceThresholds (JSNum.fin p) (JSNum.fin m) (JSNum.fin d)).1
          (coerceThresholds (JSNum.fin p) (JSNum.fin m) (JSNum.fin d)).2.1
          (coerceThresholds (JSNum.fin p) (JSNum.fin m) (JSNum.fin d)).2.2
          (rows.map Row.grade)).distCount =
        (summarize2 p m d (rows.map Row.grade)).distCount ∧
    (summarize (coerceThresholds (JSNum.fin p) (JSNum.fin m) (JSNum.fin d)).1
          (coerceThresholds (JSNum.fin p) (JSNum.fin m) (JSNum.fin d)).2.1
          (coerceThresholds (JSNum.fin p) (JSNum.fin m) (JSNum.fin d)).2.2
          (rows.map Row.grade)).mean =
        (summarize2 p m d (rows.map Row.grade)).mean ∧
    (summarize (coerceThresholds (JSNum.fin p) (JSNum.fin m) (JSNum.fin d)).1
          (coerceThresholds (JSNum.fin p) (JSNum.fin m) (JSNum.fin d)).2.1
          (coerceThresholds (JSNum.fin p) (JSNum.fin m) (JSNum.fin d)).2.2
          (rows.map Row.grade)).mean2 =
        (summarize2 p m d (rows.map Row.grade)).mean2 ∧
    (summarize (coerceThresholds (JSNum.fin p) (JSNum.fin m) (JSNum.fin d)).1
          (coerceThresholds (JSNum.fin p) (JSNum.fin m) (JSNum.fin d)).2.1
          (coerceThresholds (JSNum.fin p) (JSNum.fin m) (JSNum.fin d)).2.2
          (rows.map Row.grade)).variance =
        (summarize2 p m d (rows.map Row.grade)).variance ∧
    Real.sqrt
        (summarize (coerceThresholds (JSNum.fin p) (JSNum.fin m) (JSNum.fin d)).1
          (coerceThresholds (JSNum.fin p) (JSNum.fin m) (JSNum.fin d)).2.1
          (coerceThresholds (JSNum.fin p) (JSNum.fin m) (JSNum.fin d)).2.2
          (rows.map Row.grade)).variance =
        Real.sqrt (summarize2 p m d (rows.map Row.grade)).variance ∧
    (summarize (coerceThresholds (JSNum.fin p) (JSNum.fin m) (JSNum.fin d)).1
          (coerceThresholds (JSNum.fin p) (JSNum.fin m) (JSNum.fin d)).2.1
          (coerceThresholds (JSNum.fin p) (JSNum.fin m) (JSNum.fin d)).2.2
          (rows.map Row.grade)).max =
        (summarize2 p m d (rows.map Row.grade)).max ∧
    (summarize (coerceThresholds (JSNum.fin p) (JSNum.fin m) (JSNum.fin d)).1
          (coerceThresholds (JSNum.fin p) (JSNum.fin m) (JSNum.fin d)).2.1
          (coerceThresholds (JSNum.fin p) (JSNum.fin m) (JSNum.fin d)).2.2
          (rows.map Row.grade)).min =
        (summarize2 p m d (rows.map Row.grade)).min := by
  rw [coerceThresholds_fixed p m d h0 hpm hmd h100]
  exact ⟨rfl, rfl, rfl, rfl, rfl, rfl, rfl, rfl, rfl, rfl, rfl⟩

/-- C10 witness at a concrete input. -/
theorem c10_variant_agreement_witness :
    (summarize (coerceThresholds (JSNum.fin 40) (JSNum.fin 60) (JSNum.fin 70)).1
          (coerceThresholds (JSNum.fin 40) (JSNum.fin 60) (JSNum.fin 70)).2.1
          (coerceThresholds (JSNum.fin 40) (JSNum.fin 60) (JSNum.fin 70)).2.2
          (([⟨50, "A"⟩] : List Row).map Row.grade)).n =
        (summarize2 40 60 70 (([⟨50, "A"⟩] : List Row).map Row.grade)).n ∧
    (summarize (coerceThresholds (JSNum.fin 40) (JSNum.fin 60) (JSNum.fin 70)).1
          (coerceThresholds (JSNum.fin 40) (JSNum.fin 60) (JSNum.fin 70)).2.1
          (coerceThresholds (JSNum.fin 40) (JSNum.fin 60) (JSNum.fin 70)).2.2
          (([⟨50, "A"⟩] : List Row).map Row.grade)).passCount =
        (summarize2 40 60 70 (([⟨50, "A"⟩] : List Row).map Row.grade)).passCount ∧
    (summarize (coerceThresholds (JSNum.fin 40) (JSNum.fin 60) (JSNum.fin 70)).1
          (coerceThresholds (JSNum.fin 40) (JSNum.fin 60) (JSNum.fin 70)).2.1
          (coerceThresholds (JSNum.fin 40) (JSNum.fin 60) (JSNum.fin 70)).2.2
          (([⟨50, "A"⟩] : List Row).map Row.grade)).failCount =
        (summarize2 40 60 70 (([⟨50, "A"⟩] : List Row).map Row.grade)).failCount ∧
    (summarize (coerceThresholds (JSNum.fin 40) (JSNum.fin 60) (JSNum.fin 70)).1
          (coerceThresholds (JSNum.fin 40) (JSNum.fin 60) (JSNum.fin 70)).2.1
          (coerceThresholds (JSNum.fin 40) (JSNum.fin 60) (JSNum.fin 70)).2.2
          (([⟨50, "A"⟩] : List Row).map Row.grade)).meritCount =
        (summarize2 40 60 70 (([⟨50, "A"⟩] : List Row).map Row.grade)).meritCount ∧
    (summarize (coerceThresholds (JSNum.fin 40) (JSNum.fin 60) (JSNum.fin 70)).1
          (coerceThresholds (JSNum.fin 40) (JSNum.fin 60) (JSNum.fin 70)).2.1
          (coerceThresholds (JSNum.fin 40) (JSNum.fin 60) (JSNum.fin 70)).2.2
          (([⟨50, "A"⟩] : List Row).map Row.grade)).distCount =
        (summarize2 40 60 70 (([⟨50, "A"⟩] : List Row).map Row.grade)).distCount ∧
    (summarize (coerceThresholds (JSNum.fin 40) (JSNum.fin 60) (JSNum.fin 70)).1
          (coerceThresholds (JSNum.fin 40) (JSNum.fin 60) (JSNum.fin 70)).2.1
          (coerceThresholds (JSNum.fin 40) (JSNum.fin 60) (JSNum.fin 70)).2.2
          (([⟨50, "A"⟩] : List Row).map Row.grade)).mean =
        (summarize2 40 60 70 (([⟨50, "A"⟩] : List Row).map Row.grade)).mean ∧
    (summarize (coerceThresholds (JSNum.fin 40) (JSNum.fin 60) (JSNum.fin 70)).1
          (coerceThresholds (JSNum.fin 40) (JSNum.fin 60) (JSNum.fin 70)).2.1
          (coerceThresholds (JSNum.fin 40) (JSNum.fin 60) (JSNum.fin 70)).2.2
          (([⟨50, "A"⟩] : List Row).map Row.grade)).mean2 =
        (summarize2 40 60 70 (([⟨50, "A"⟩] : List Row).map Row.grade)).mean2 ∧
    (summarize (coerceThresholds (JSNum.fin 40) (JSNum.fin 60) (JSNum.fin 70)).1
          (coerceThresholds (JSNum.fin 40) (JSNum.fin 60) (JSNum.fin 70)).2.1
          (coerceThresholds (JSNum.fin 40) (JSNum.fin 60) (JSNum.fin 70)).2.2
          (([⟨50, "A"⟩] : List Row).map Row.grade)).variance =
        (summarize2 40 60 70 (([⟨50, "A"⟩] : List Row).map Row.grade)).variance ∧
    Real.sqrt
        (summarize (coerceThresholds (JSNum.fin 40) (JSNum.fin 60) (JSNum.fin 70)).1
          (coerceThresholds (JSNum.fin 40) (JSNum.fin 60) (JSNum.fin 70)).2.1
          (coerceThresholds (JSNum.fin 40) (JSNum.fin 60) (JSNum.fin 70)).2.2
          (([⟨50, "A"⟩] : List Row).map Row.grade)).variance =
        Real.sqrt (summarize2 40 60 70 (([⟨50, "A"⟩] : List Row).map Row.grade)).variance ∧
    (summarize (coerceThresholds (JSNum.fin 40) (JSNum.fin 60) (JSNum.fin 70)).1
          (coerceThresholds (JSNum.fin 40) (JSNum.fin 60) (JSNum.fin 70)).2.1
          (coerceThresholds (JSNum.fin 40) (JSNum.fin 60) (JSNum.fin 70)).2.2
          (([⟨50, "A"⟩] : List Row).map Row.grade)).max =
        (summarize2 40 60 70 (([⟨50, "A"⟩] : List Row).map Row.grade)).max ∧
    (summarize (coerceThresholds (JSNum.fin 40) (JSNum.fin 60) (JSNum.fin 70)).1
          (coerceThresholds (JSNum.fin 40) (JSNum.fin 60) (JSNum.fin 70)).2.1
          (coerceThresholds (JSNum.fin 40) (JSNum.fin 60) (JSNum.fin 70)).2.2
          (([⟨50, "A"⟩] : List Row).map Row.grade)).min =
        (summarize2 40 60 70 (([⟨50, "A"⟩] : List Row).map Row.grade)).min :=
  c10_variant_agreement 40 60 70 [⟨50, "A"⟩] (by norm_num) (by norm_num)
    (by norm_num) (by norm_num)

end GradeApp

namespace GradeApp

/-! Claim C2. -/

/-- Unfolds `parseNumber` on a string cell. -/
theorem parseNumber_str_eq (s : String) :
    parseNumber (Cell.str s) =
      (if (parseFloatCore ((trimChars s.data).filter fun c =>
            decide (c ≠ ',' ∧ c ≠ '%'))).isFinite then
        parseFloatCore ((trimChars s.data).filter fun c =>
          decide (c ≠ ',' ∧ c ≠ '%'))
      else JSNum.nan) := rfl

/-- A string cell coerces to NaN or to a finite number, never to an
infinity: the `Number.isFinite` guard maps every non-finite parse to NaN. -/
theorem parseNumber_str_cases (s : String) :
    parseNumber (Cell.str s) = JSNum.nan ∨
      (parseNumber (Cell.str s)).isFinite = true := by
  rw [parseNumber_str_eq]
  cases hf : (parseFloatCore ((trimChars s.data).filter fun c =>
      decide (c ≠ ',' ∧ c ≠ '%'))).isFinite with
  | false => left; simp
  | true => right; simpa using hf

/-- C2, counterexample: a raw row whose grade cell is the literal number
`Infinity` is not excluded by the NaN filter: it enters aggregation with a
non-finite grade. -/
theorem c2_coercion_counterexample :
    prepareRows [⟨Cell.num (JSNum.inf true), none⟩] =
      [⟨JSNum.inf true, "(missing)"⟩] ∧
    (JSNum.inf true).isFinite = false :=
  ⟨rfl, rfl⟩

/-- C2, amended: a literal numeric value is taken as-is; a string value is
trimmed, stripped of commas and percent signs and parsed, with any
non-finite parse excluded, so a coerced row is excluded exactly when its
grade is NaN; every surviving row has a finite grade provided no raw cell
holds a non-finite numeric literal; and concretely "85%" coerces to 85
while "N/A" is excluded. -/
theorem c2_coercion_amended :
    (∀ v : JSNum, parseNumber (Cell.num v) = v) ∧
    (∀ s : String, parseNumber (Cell.str s) = JSNum.nan ∨
      (parseNumber (Cell.str s)).isFinite = true) ∧
    (∀ data : List RawRow, ∀ r ∈ prepareRows data, r.grade.isNaN = false) ∧
    (∀ data : List RawRow,
      (∀ row ∈ data, ∀ b : Bool, row.gradeCell ≠ Cell.num (JSNum.inf b)) →
        ∀ r ∈ prepareRows data, r.grade.isFinite = true) ∧
    parseNumber (Cell.str "85%") = JSNum.fin 85 ∧
    parseNumber (Cell.str "N/A") = JSNum.nan := by
  refine ⟨fun v => rfl, parseNumber_str_cases, ?_, ?_, ?_, ?_⟩
  · intro data r hr
    rw [prepareRows] at hr
    simpa using List.of_mem_filter hr
  · intro data hno r hr
    rw [prepareRows] at hr
    have hp := List.of_mem_filter hr
    obtain ⟨row, hrow, heq⟩ := List.mem_map.1 (List.mem_of_mem_filter hr)
    have hgrade : r.grade = parseNumber row.gradeCell := by rw [← heq]
    have hnotnan : (parseNumber row.gradeCell).isNaN = false := by
      rw [← hgrade]
      simpa using hp
    rw [hgrade]
    cases hcell : row.gradeCell with
    | null =>
        rw [hcell] at hnotnan
        simp [parseNumber, JSNum.isNaN] at hnotnan
    | num v =>
        cases v with
        | fin q => rfl
        | nan =>
            rw [hcell] at hnotnan
            simp [parseNumber, JSNum.isNaN] at hnotnan
        | inf b => exact absurd hcell (hno row hrow b)
    | str s =>
        rcases parseNumber_str_cases s with hcase | hcase
        · rw [hcell] at hnotnan
          rw [hcase] at hnotnan
          simp [JSNum.isNaN] at hnotnan
        · exact hcase
  · have hcs : ((trimChars "85%".data).filter fun c =>
        decide (c ≠ ',' ∧ c ≠ '%')) = ['8', '5'] := by decide
    have hpf : parseFloatCore ['8', '5'] = JSNum.fin 85 := by
      simp +decide [parseFloatCore, parseSign, takeDigits, digitsVal,
        digitVal, parseExponent]
    rw [parseNumber_str_eq, hcs, hpf]
    rfl
  · have hcs : ((trimChars "N/A".data).filter fun c =>
        decide (c ≠ ',' ∧ c ≠ '%')) = ['N', '/', 'A'] := by decide
    rw [parseNumber_str_eq, hcs]
    rfl

/-- C2 witness: the row coerced from the cell "85%" survives the filter
with the finite grade 85. -/
theorem c2_coercion_witness :
    (⟨JSNum.fin 85, "A"⟩ : JSRow).grade.isNaN = false ∧
    (⟨JSNum.fin 85, "A"⟩ : JSRow).grade.isFinite = true := by
  have h85 : parseNumber (Cell.str "85%") = JSNum.fin 85 :=
    c2_coercion_amended.2.2.2.2.1
  have hp : prepareRows [⟨Cell.str "85%", some "A"⟩] =
      [⟨JSNum.fin 85, "A"⟩] := by
    rw [prepareRows]
    simp [h85, JSNum.isNaN]
  refine ⟨c2_coercion_amended.2.2.1 [⟨Cell.str "85%", some "A"⟩] _ ?_,
    c2_coercion_amended.2.2.2.1 [⟨Cell.str "85%", some "A"⟩]
      (fun row hrow b => ?_) _ ?_⟩
  · rw [hp]
    exact List.mem_cons_self _ _
  · rw [List.mem_singleton.1 hrow]
    simp
  · rw [hp]
    exact List.mem_cons_self _ _

end GradeApp

namespace GradeApp

/-! Claim C4. -/

/-- C4, counterexample: on an input whose only coerced grade is the literal
number `Infinity`, zero rows have a finite grade, yet `generateReport`
succeeds instead of failing with `EmptyResult` (the guard tests NaN, not
finiteness). -/
theorem c4_empty_result_counterexample :
    (∀ r ∈ prepareRows [⟨Cell.num (JSNum.inf true), none⟩],
      r.grade.isFinite = false) ∧
    (generateReport true
        { data := [⟨Cell.num (JSNum.inf true), none⟩],
          gradeColSelected := true, groupColSelected := true, title := "T",
          passing := JSNum.fin 40, merit := JSNum.fin 60,
          distinction := JSNum.fin 70, overallSummary := [],
          groupSummary := [] }).1 = none := by
  refine ⟨by decide, rfl⟩

/-- C4, amended: when every coerced grade is NaN (zero rows survive
coercion), `generateReport` fails with `EmptyResult`; and on every error
outcome the previously computed overall and group summaries are unchanged. -/
theorem c4_empty_result_amended :
    (∀ (confirm : Bool) (st : AppState),
        st.data ≠ [] → st.gradeColSelected = true →
        st.groupColSelected = true →
        ¬(trimChars st.title.data = [] ∧ confirm = false) →
        (∀ row ∈ st.data, (parseNumber row.gradeCell).isNaN = true) →
        (generateReport confirm st).1 = some GenError.emptyResult) ∧
    (∀ (confirm : Bool) (st : AppState) (e : GenError),
        (generateReport confirm st).1 = some e →
        (generateReport confirm st).2.overallSummary = st.overallSummary ∧
        (generateReport confirm st).2.groupSummary = st.groupSummary) := by
  constructor
  · intro confirm st h1 h2 h3 h4 h5
    have hrows : prepareRows st.data = [] := by
      rw [prepareRows, List.filter_eq_nil_iff]
      intro a ha
      obtain ⟨row, hrow, heq⟩ := List.mem_map.1 ha
      rw [← heq]
      simp [h5 row hrow]
    simp only [generateReport]
    rw [if_neg h1, if_neg (by simp [h2]), if_neg (by simp [h3]), if_neg h4,
      if_pos hrows]
  · intro confirm st e
    simp only [generateReport]
    split_ifs <;> intro he <;> first | exact ⟨rfl, rfl⟩ | simp at he

/-- C4 witness: a dataset whose only grade cell is the string "N/A" fails
with `EmptyResult` and leaves both summary tables untouched. -/
theorem c4_empty_result_witness :
    (generateReport true
        { data := [⟨Cell.str "N/A", none⟩], gradeColSelected := true,
          groupColSelected := true, title := "T", passing := JSNum.fin 40,
          merit := JSNum.fin 60, distinction := JSNum.fin 70,
          overallSummary := [], groupSummary := [] }).1 =
      some GenError.emptyResult ∧
    (generateReport true
        { data := [⟨Cell.str "N/A", none⟩], gradeColSelected := true,
          groupColSelected := true, title := "T", passing := JSNum.fin 40,
          merit := JSNum.fin 60, distinction := JSNum.fin 70,
          overallSummary := [], groupSummary := [] }).2.overallSummary = [] ∧
    (generateReport true
        { data := [⟨Cell.str "N/A", none⟩], gradeColSelected := true,
          groupColSelected := true, title := "T", passing := JSNum.fin 40,
          merit := JSNum.fin 60, distinction := JSNum.fin 70,
          overallSummary := [], groupSummary := [] }).2.groupSummary = [] := by
  have h1 := c4_empty_result_amended.1 true
    { data := [⟨Cell.str "N/A", none⟩], gradeColSelected := true,
      groupColSelected := true, title := "T", passing := JSNum.fin 40,
      merit := JSNum.fin 60, distinction := JSNum.fin 70,
      overallSummary := [], groupSummary := [] }
    (by decide) rfl rfl (by decide) (by decide)
  have h2 := c4_empty_result_amended.2 true
    { data := [⟨Cell.str "N/A", none⟩], gradeColSelected := true,
      groupColSelected := true, title := "T", passing := JSNum.fin 40,
      merit := JSNum.fin 60, distinction := JSNum.fin 70,
      overallSummary := [], groupSummary := [] }
    GenError.emptyResult h1
  exact ⟨h1, h2.1, h2.2⟩

end GradeApp
